import Mathlib

/-!
Shallow embedding of the SAM pipeline core:

* `N_T_OB.py` — the geometric buffer transform (module body);
* `read_config_csv` — the 5-column dataset loader in `N_Moving_Objects.py`;
* the PDP orchestrator — the module body of `N_Moving_Objects.py`
  (fundamental / buffer / rough / buffer+rough branches, active flags,
  artifact copying, the one-shot completion guard).

Modelling conventions:

* A CSV cell is `Option ℚ`: `some q` when the text parses as a number,
  `none` when it does not (`float(...)` / `pd.to_numeric` would raise).
  Python floats are modelled as exact rationals; `round(v, 2)` is modelled
  as exact decimal rounding with round-half-to-even (`pyRound2`).
* A file system is a partial map from path strings to parsed CSV contents;
  paths are taken to be canonical, so `os.path.abspath` is the identity
  and two different strings denote two different files.
* Python exceptions are the inductive `Exc`; an uncaught exception aborts
  the module run and is surfaced as the `Option Exc` component of a
  branch's result, with the mutations made before the raise preserved
  (Python does not roll back state on an exception).
-/

deriving instance DecidableEq for Except

namespace SAM

/-- A CSV cell: `some q` when the text parses as a number, `none` otherwise. -/
abbrev Cell := Option ℚ

/-- Parsed CSV file contents: a list of rows of cells. -/
abbrev Content := List (List Cell)

/-- A file system: maps a (canonical) path to the contents of the file
stored there, `none` when no file exists at that path. -/
abbrev FS := String → Option Content

/-- Overwrite (or create) the file at `p` with contents `c`. -/
def fsWrite (fs : FS) (p : String) (c : Content) : FS :=
  fun q => if q = p then some c else fs q

/-- `os.path.join results_dir name` for a canonical directory path. -/
def joinPath (dir name : String) : String := dir ++ "/" ++ name

/-- The Python exceptions that the modelled code can raise. -/
inductive Exc where
  /-- `FileNotFoundError`, carrying the missing path named in its message. -/
  | notFound (path : String)
  /-- `ValueError(f"Unexpected number of columns ({ncols}) in {path}. Expected 5.")`. -/
  | formatCols (path : String) (ncols : ℕ)
  /-- `ValueError` raised by `pd.to_numeric(..., errors='raise')` or `float(...)`. -/
  | toNumeric
  /-- `pandas.errors.EmptyDataError`: `pd.read_csv` on an input with no data. -/
  | emptyData
  /-- `pandas.errors.ParserError`: ragged input rows. -/
  | ragged
deriving DecidableEq

/-- Round-half-to-even on an exact rational, as Python's `round` ties-to-even. -/
def roundHE (q : ℚ) : ℤ :=
  let f := ⌊q⌋
  let r := q - f
  if r < 1/2 then f
  else if 1/2 < r then f + 1
  else if f % 2 = 0 then f else f + 1

/-- Python's `round(v, 2)` modelled exactly on rationals. -/
def pyRound2 (q : ℚ) : ℚ := (roundHE (q * 100) : ℚ) / 100

/-- `q` has at most two decimal places (is an integer number of hundredths). -/
def isCent (q : ℚ) : Prop := (q * 100).den = 1

instance (q : ℚ) : Decidable (isCent q) := by unfold isCent; infer_instance

/-- Python's `int(...)` on a float/rational: truncation toward zero. -/
def pyInt (q : ℚ) : ℤ := if 0 ≤ q then ⌊q⌋ else ⌈q⌉

/-! ## `N_T_OB.py` — the buffer transform

The module body reads the dataset CSV, expands each row into five rows
(shift left in x, shift right in x, unchanged, shift down in y, shift up
in y), and writes the result to `N_C_PDPg_buffer_Dataset.csv` in the
results directory.  Rows with fewer than five fields are skipped.
`float(...)` on a non-numeric cell raises `ValueError`, aborting the
whole module before anything is written. -/

/-- One iteration of the row-expansion loop of `N_T_OB.py` (lines 50–60):
the five rows appended for one input line, `.ok []` for a skipped short
line, `.error` when `float(...)` fails on the point id or a coordinate. -/
def processLine (buffer_x buffer_y : ℚ) (line : List Cell) :
    Except Exc (List (List Cell)) :=
  match line with
  | c :: t :: p :: x :: y :: _ =>
    match p, x, y with
    | some pv, some xv, some yv =>
      .ok [ [c, t, some (pyRound2 (pv * 5 + 0)), some (pyRound2 (xv - buffer_x)), y],
            [c, t, some (pyRound2 (pv * 5 + 1)), some (pyRound2 (xv + buffer_x)), y],
            [c, t, some (pyRound2 (pv * 5 + 2)), x, y],
            [c, t, some (pyRound2 (pv * 5 + 3)), x, some (pyRound2 (yv - buffer_y))],
            [c, t, some (pyRound2 (pv * 5 + 4)), x, some (pyRound2 (yv + buffer_y))] ]
    | _, _, _ => .error .toNumeric
  | _ => .ok []

/-- The whole row-expansion loop of `N_T_OB.py`: concatenates the five-row
groups in input order; the first `float` failure aborts the loop. -/
def buffer_transform (buffer_x buffer_y : ℚ) :
    List (List Cell) → Except Exc (List (List Cell))
  | [] => .ok []
  | line :: rest =>
    match processLine buffer_x buffer_y line with
    | .error e => .error e
    | .ok h =>
      match buffer_transform buffer_x buffer_y rest with
      | .error e => .error e
      | .ok t => .ok (h ++ t)

/-! ## `read_config_csv` — the dataset loader (`N_Moving_Objects.py` 43–73) -/

/-- One fully numeric 5-column record `(conID, tstID, poiID, x, y)`. -/
structure Record where
  conID : ℚ
  tstID : ℚ
  poiID : ℚ
  x : ℚ
  y : ℚ
deriving DecidableEq

/-- `pd.to_numeric(..., errors='raise')` on one 5-cell row: succeeds only
when every cell parsed as a number. -/
def rowToRecord (row : List Cell) : Option Record :=
  match row with
  | [some a, some b, some c, some d, some e] => some ⟨a, b, c, d, e⟩
  | _ => none

/-- `pd.to_numeric(..., errors='raise')` over the whole frame: the first
non-numeric cell raises. -/
def toRecords : Content → Option (List Record)
  | [] => some []
  | r :: rest =>
    match rowToRecord r, toRecords rest with
    | some h, some t => some (h :: t)
    | _, _ => none

/-- `Series.max` over a column of a nonempty frame (0 on the empty list,
which `read_config_csv` never reaches). -/
def colMax (f : Record → ℚ) : List Record → ℚ
  | [] => 0
  | [r] => f r
  | r :: rest => max (f r) (colMax f rest)

/-- `df.shape[1]`: the column count of a (rectangular) frame. -/
def ncolsOf (rows : Content) : ℕ := (rows.headD []).length

/-- The result of a successful load: the records plus the three
cardinalities `con`, `tst`, `poi` inferred as `int(max)+1`. -/
structure LoadResult where
  records : List Record
  con : ℤ
  tst : ℤ
  poi : ℤ
deriving DecidableEq

/-- `read_config_csv(path)` of `N_Moving_Objects.py` on already-tokenized
rows.  `pd.read_csv` raises `EmptyDataError` on an input with no data and
`ParserError` on ragged rows; a frame whose column count is not 5 raises
`ValueError` naming the path and the count; `pd.to_numeric` raises on any
non-numeric cell; otherwise the cardinalities are `int(column.max())+1`
(with the dead `0` fallback for an empty frame kept from the source). -/
def read_config_csv (path : String) (rows : Content) : Except Exc LoadResult :=
  if rows.isEmpty then
    .error .emptyData
  else if ¬ rows.all (fun r => r.length = ncolsOf rows) then
    .error .ragged
  else if ncolsOf rows ≠ 5 then
    .error (.formatCols path (ncolsOf rows))
  else
    match toRecords rows with
    | none => .error .toNumeric
    | some recs =>
      let con : ℤ := if recs.length ≠ 0 then pyInt (colMax Record.conID recs) + 1 else 0
      let tst : ℤ := if recs.length ≠ 0 then pyInt (colMax Record.tstID recs) + 1 else 0
      let poi : ℤ := if recs.length ≠ 0 then pyInt (colMax Record.poiID recs) + 1 else 0
      .ok ⟨recs, con, tst, poi⟩

/-- The 5-cell row serializing one record (all cells numeric). -/
def recordToRow (r : Record) : List Cell :=
  [some r.conID, some r.tstID, some r.poiID, some r.x, some r.y]

/-! ## The PDP orchestrator — module body of `N_Moving_Objects.py`

The shared settings module `av` is not part of the sources, only its
fields read and written here are; its initial field values are modelled
from the spec (§3: per-variant active flags are 0 outside a variant's
stage sequence, the completion guard starts unset). -/

/-- The fields of the shared `av` settings module that the orchestrator
reads or writes: the four variant toggles, the four per-variant active
flags, the current-dataset pointer and its cardinalities, the buffer
offsets, and the one-shot completion-print guard. -/
structure AV where
  PDPg_fundamental : Bool
  PDPg_buffer : Bool
  PDPg_rough : Bool
  PDPg_bufferrough : Bool
  PDPg_fundamental_active : ℕ
  PDPg_buffer_active : ℕ
  PDPg_rough_active : ℕ
  PDPg_bufferrough_active : ℕ
  dataset_name : String
  records : List Record
  con : ℤ
  tst : ℤ
  poi : ℤ
  buffer_x : ℚ
  buffer_y : ℚ
  moving_objects_printed : Bool

/-- Run-wide inputs that Python reads from the environment:
`AV_RESULTS_DIR` (resolved once per statement; modelled as one canonical
directory) and the optional `AV_DATASET` override read by `N_T_OB.py`. -/
structure Params where
  results_dir : String
  envDataset : Option String

/-- The observable process state threaded through the module body:
the `av` settings, the file system, whether `N_T_OB` is already in
`sys.modules`, the diagnostics printed by `except` handlers, the flag
snapshots taken at observation points between stage invocations, and the
number of completion reports printed so far. -/
structure RunState where
  av : AV
  fs : FS
  n_t_ob_imported : Bool
  caught : List Exc
  obs : List (ℕ × ℕ × ℕ × ℕ)
  reports : ℕ

/-- Record the current values of the four active flags as one observation
point between stage invocations. -/
def snapshot (rs : RunState) : RunState :=
  { rs with obs := rs.obs ++
      [(rs.av.PDPg_fundamental_active, rs.av.PDPg_buffer_active,
        rs.av.PDPg_rough_active, rs.av.PDPg_bufferrough_active)] }

/-- The artifact filename of the fundamental variant. -/
def fundamentalName : String := "N_C_PDPg_fundamental_Dataset.csv"

/-- The artifact filename of the buffer variant. -/
def bufferName : String := "N_C_PDPg_buffer_Dataset.csv"

/-- The copy step of the fundamental branch (`N_Moving_Objects.py`
102–104): `shutil.copyfile(av.dataset_name, pdp_dataset_path)` guarded by
`os.path.abspath(src) != os.path.abspath(dst)`; `copyfile` overwrites the
destination whole and raises `FileNotFoundError` on a missing source. -/
def fundamental_copy (fs : FS) (src dst : String) : Except Exc FS :=
  if src ≠ dst then
    match fs src with
    | none => .error (.notFound src)
    | some c => .ok (fsWrite fs dst c)
  else
    .ok fs

/-- The dataset path `N_T_OB.py` reads (line 26):
`os.environ.get('AV_DATASET', av.dataset_name)`. -/
def datasetPathFor (p : Params) (av : AV) : String :=
  p.envDataset.getD av.dataset_name

/-- Executing the module body of `N_T_OB.py`: raise `FileNotFoundError`
when the input path has no file; otherwise expand every row and write the
result (a full rewrite) to `N_C_PDPg_buffer_Dataset.csv` in the results
directory.  Nothing is written when the expansion loop raises. -/
def n_t_ob_module (p : Params) (av : AV) (fs : FS) : Except Exc FS :=
  let dp := datasetPathFor p av
  match fs dp with
  | none => .error (.notFound dp)
  | some rows =>
    match buffer_transform av.buffer_x av.buffer_y rows with
    | .error e => .error e
    | .ok out => .ok (fsWrite fs (joinPath p.results_dir bufferName) out)

/-- `import N_T_OB`: a no-op when the module is already in `sys.modules`;
otherwise the module body executes, and only a successful execution
caches it.  An exception raised by the body propagates as itself (it is
not converted to `ImportError`). -/
def import_n_t_ob (p : Params) (rs : RunState) : RunState × Option Exc :=
  if rs.n_t_ob_imported then (rs, none)
  else
    match n_t_ob_module p rs.av rs.fs with
    | .error e => (rs, some e)
    | .ok fs' => ({ rs with fs := fs', n_t_ob_imported := true }, none)

/-- The fundamental branch (`N_Moving_Objects.py` 91–154): set the active
flag, copy the source dataset to the fundamental artifact path unless the
two paths coincide, point `av.dataset_name` at the artifact, load it, run
the toggle-gated analysis stages (external adapters, no effect on the
modelled state), and clear the active flag.  No `try` protects this
branch: any exception aborts the module run. -/
def fundamental_branch (p : Params) (rs : RunState) : RunState × Option Exc :=
  if rs.av.PDPg_fundamental then
    let rs1 := snapshot { rs with av := { rs.av with PDPg_fundamental_active := 1 } }
    let dst := joinPath p.results_dir fundamentalName
    match fundamental_copy rs1.fs rs1.av.dataset_name dst with
    | .error e => (rs1, some e)
    | .ok fs2 =>
      let rs2 := { rs1 with fs := fs2, av := { rs1.av with dataset_name := dst } }
      match rs2.fs dst with
      | none => (rs2, some (.notFound dst))
      | some rows =>
        match read_config_csv dst rows with
        | .error e => (rs2, some e)
        | .ok res =>
          let rs3 := { rs2 with av := { rs2.av with
            records := res.records, con := res.con, tst := res.tst, poi := res.poi } }
          (snapshot { rs3 with av := { rs3.av with PDPg_fundamental_active := 0 } }, none)
  else (rs, none)

/-- The `try` body of the buffer branch (lines 164–206), given the state
with the active flag already set: import (execute) `N_T_OB`, require the
buffer artifact to exist, point `av.dataset_name` at it and load it,
reload the analysis stages.  Every modelled exception is caught by one of
the `except` clauses and appended to the printed diagnostics; mutations
made before the raise persist. -/
def buffer_try (p : Params) (rs1 : RunState) : RunState :=
  match import_n_t_ob p rs1 with
  | (rs2, some e) => { rs2 with caught := rs2.caught ++ [e] }
  | (rs2, none) =>
    let bdp := joinPath p.results_dir bufferName
    match rs2.fs bdp with
    | none => { rs2 with caught := rs2.caught ++ [Exc.notFound bdp] }
    | some rows =>
      let av3 := { rs2.av with dataset_name := bdp }
      match read_config_csv bdp rows with
      | .error e => { rs2 with av := av3, caught := rs2.caught ++ [e] }
      | .ok res =>
        { rs2 with av := { av3 with
            records := res.records, con := res.con, tst := res.tst, poi := res.poi } }

/-- The body of the buffer branch after flag activation: run the `try`
body, then clear the active flag after the `try`/`except`. -/
def buffer_after (p : Params) (rs1 : RunState) : RunState × Option Exc :=
  let afterTry := buffer_try p rs1
  (snapshot { afterTry with av := { afterTry.av with PDPg_buffer_active := 0 } }, none)

/-- The buffer branch (`N_Moving_Objects.py` 158–218): set the active
flag, run the `try` body, and clear the active flag after the
`try`/`except` — so the branch never aborts the run. -/
def buffer_branch (p : Params) (rs : RunState) : RunState × Option Exc :=
  if rs.av.PDPg_buffer then
    buffer_after p (snapshot { rs with av := { rs.av with PDPg_buffer_active := 1 } })
  else (rs, none)

/-- The rough branch (`N_Moving_Objects.py` 222–261): set the active
flag, re-select the fundamental artifact as current dataset, load it, and
reload the analysis stages.  There is no `try` here: a missing or
malformed fundamental artifact raises out of the module with the active
flag still set. -/
def rough_branch (p : Params) (rs : RunState) : RunState × Option Exc :=
  if rs.av.PDPg_rough then
    let rs1 := snapshot { rs with av := { rs.av with PDPg_rough_active := 1 } }
    let pdp := joinPath p.results_dir fundamentalName
    let rs2 := { rs1 with av := { rs1.av with dataset_name := pdp } }
    match rs2.fs pdp with
    | none => (rs2, some (.notFound pdp))
    | some rows =>
      match read_config_csv pdp rows with
      | .error e => (rs2, some e)
      | .ok res =>
        let rs3 := { rs2 with av := { rs2.av with
          records := res.records, con := res.con, tst := res.tst, poi := res.poi } }
        (snapshot { rs3 with av := { rs3.av with PDPg_rough_active := 0 } }, none)
  else (rs, none)

/-- Relocate the buffer artifact from the working directory into the
results directory (`N_Moving_Objects.py` 279–282): `shutil.move`, which
overwrites an existing destination. -/
def moveFile (fs : FS) (src dst : String) : FS :=
  fun q => if q = dst then fs src else if q = src then none else fs q

/-- The `try` body of the buffer+rough branch (lines 271–311), given the
state with the active flag already set: import (execute) `N_T_OB`,
relocate a working-directory buffer artifact into the results directory,
point `av.dataset_name` at it and load it, reload the analysis stages.
Only `ImportError` is caught by this branch; the modelled exceptions are
none of them `ImportError`, so they propagate as the `some` component. -/
def bufferrough_try (p : Params) (rs1 : RunState) : RunState × Option Exc :=
  match import_n_t_ob p rs1 with
  | (rs2, some e) => (rs2, some e)
  | (rs2, none) =>
    let buffer_cwd := bufferName
    let buffer_results := joinPath p.results_dir bufferName
    let fs3 :=
      if (rs2.fs buffer_cwd).isSome ∧ buffer_cwd ≠ buffer_results then
        moveFile rs2.fs buffer_cwd buffer_results
      else rs2.fs
    let rs3 := { rs2 with fs := fs3, av := { rs2.av with dataset_name := buffer_results } }
    match rs3.fs buffer_results with
    | none => (rs3, some (.notFound buffer_results))
    | some rows =>
      match read_config_csv buffer_results rows with
      | .error e => (rs3, some e)
      | .ok res =>
        ({ rs3 with av := { rs3.av with
            records := res.records, con := res.con, tst := res.tst, poi := res.poi } }, none)

/-- The body of the buffer+rough branch after flag activation: run the
`try` body; an uncaught exception propagates with the flag still set,
otherwise the flag is cleared. -/
def bufferrough_after (p : Params) (rs1 : RunState) : RunState × Option Exc :=
  match bufferrough_try p rs1 with
  | (rs4, some e) => (rs4, some e)
  | (rs4, none) =>
    (snapshot { rs4 with av := { rs4.av with PDPg_bufferrough_active := 0 } }, none)

/-- The buffer+rough branch (`N_Moving_Objects.py` 265–316): set the
active flag, run the `try` body; on an uncaught exception the run aborts
with the active flag still set, otherwise the flag is cleared. -/
def bufferrough_branch (p : Params) (rs : RunState) : RunState × Option Exc :=
  if rs.av.PDPg_bufferrough then
    bufferrough_after p (snapshot { rs with av := { rs.av with PDPg_bufferrough_active := 1 } })
  else (rs, none)

/-- One execution of the module body of `N_Moving_Objects.py`: read the
completion guard (`_already_printed`, line 25), run the four variant
branches in the fixed order, and, unless the guard was already set, print
the completion/elapsed-time report once and set the guard (lines
320–327).  The second component reports an uncaught exception, which
skips everything after the raising statement. -/
def runModule (p : Params) (rs : RunState) : RunState × Option Exc :=
  let already := rs.av.moving_objects_printed
  let rs0 := snapshot rs
  match fundamental_branch p rs0 with
  | (rs1, some e) => (rs1, some e)
  | (rs1, none) =>
    match buffer_branch p rs1 with
    | (rs2, some e) => (rs2, some e)
    | (rs2, none) =>
      match rough_branch p rs2 with
      | (rs3, some e) => (rs3, some e)
      | (rs3, none) =>
        match bufferrough_branch p rs3 with
        | (rs4, some e) => (rs4, some e)
        | (rs4, none) =>
          if already then (rs4, none)
          else
            ({ rs4 with
                reports := rs4.reports + 1
                av := { rs4.av with moving_objects_printed := true } }, none)

/-- Re-entering the orchestrator `n` times within one process (reloads
against the same long-lived `av` object). -/
def runSeq (p : Params) : ℕ → RunState → RunState
  | 0, rs => rs
  | n + 1, rs => runSeq p n (runModule p rs).1

/-- All four per-variant active flags are 0. -/
def flagsZero (av : AV) : Prop :=
  av.PDPg_fundamental_active = 0 ∧ av.PDPg_buffer_active = 0 ∧
  av.PDPg_rough_active = 0 ∧ av.PDPg_bufferrough_active = 0

/-- At most one of the four sampled flags is nonzero. -/
def atMostOneActive (q : ℕ × ℕ × ℕ × ℕ) : Prop :=
  (if q.1 ≠ 0 then 1 else 0) + (if q.2.1 ≠ 0 then 1 else 0) +
    (if q.2.2.1 ≠ 0 then 1 else 0) + (if q.2.2.2 ≠ 0 then 1 else 0) ≤ 1

/-! ## Concrete fixtures used by witnesses and counterexamples -/

/-- Settings fixture: the four toggles as given, the source dataset at
`src.csv`, buffer offsets 2 and 3, everything else at its initial value. -/
def avFix (f b r br : Bool) : AV :=
  { PDPg_fundamental := f, PDPg_buffer := b, PDPg_rough := r, PDPg_bufferrough := br
    PDPg_fundamental_active := 0, PDPg_buffer_active := 0
    PDPg_rough_active := 0, PDPg_bufferrough_active := 0
    dataset_name := "src.csv", records := [], con := 0, tst := 0, poi := 0
    buffer_x := 2, buffer_y := 3, moving_objects_printed := false }

/-- A file system with no files. -/
def emptyFS : FS := fun _ => none

/-- A file system holding one one-row source dataset at `src.csv`. -/
def srcFS : FS :=
  fun q => if q = "src.csv" then some [[some 0, some 0, some 0, some 10, some 20]] else none

/-- Initial run state over the given toggles and file system. -/
def rsFix (f b r br : Bool) (fs : FS) : RunState :=
  { av := avFix f b r br, fs := fs, n_t_ob_imported := false
    caught := [], obs := [], reports := 0 }

/-- Run parameters fixture: results directory `res`, no `AV_DATASET`. -/
def pFix : Params := { results_dir := "res", envDataset := none }

/-- A run state whose completion guard is already set. -/
def rsPrinted : RunState :=
  { rsFix true false false false srcFS with
      av := { avFix true false false false with moving_objects_printed := true } }

/-- A file system holding one (empty) file at `a.csv`. -/
def fsA : FS := fun q => if q = "a.csv" then some [] else none

/-! ## Arithmetic facts about `pyRound2` and `isCent` -/

/-- `q` is an integer number of hundredths exactly when `q * 100` is an
integer. -/
theorem isCent_iff {q : ℚ} : isCent q ↔ ∃ n : ℤ, q * 100 = (n : ℚ) := by
  unfold isCent
  constructor
  · intro h
    exact ⟨(q * 100).num, ((Rat.den_eq_one_iff _).1 h).symm⟩
  · rintro ⟨n, hn⟩
    rw [hn]
    exact Rat.den_intCast n

theorem isCent.add {a b : ℚ} (ha : isCent a) (hb : isCent b) : isCent (a + b) := by
  rw [isCent_iff] at *
  obtain ⟨m, hm⟩ := ha
  obtain ⟨n, hn⟩ := hb
  exact ⟨m + n, by push_cast [← hm, ← hn]; ring⟩

theorem isCent.sub {a b : ℚ} (ha : isCent a) (hb : isCent b) : isCent (a - b) := by
  rw [isCent_iff] at *
  obtain ⟨m, hm⟩ := ha
  obtain ⟨n, hn⟩ := hb
  exact ⟨m - n, by push_cast [← hm, ← hn]; ring⟩

theorem isCent.mul_five {a : ℚ} (ha : isCent a) : isCent (a * 5) := by
  rw [isCent_iff] at *
  obtain ⟨m, hm⟩ := ha
  exact ⟨m * 5, by push_cast [← hm]; ring⟩

/-- Rounding an integer-valued rational is the identity. -/
theorem roundHE_intCast (n : ℤ) : roundHE (n : ℚ) = n := by
  unfold roundHE
  simp

/-- `round(v, 2)` leaves a two-decimal value unchanged. -/
theorem pyRound2_eq_self {q : ℚ} (h : isCent q) : pyRound2 q = q := by
  obtain ⟨n, hn⟩ := isCent_iff.1 h
  unfold pyRound2
  rw [hn, roundHE_intCast, ← hn]
  field_simp

/-- `round(v, 2)` always produces a two-decimal value. -/
theorem isCent_pyRound2 (q : ℚ) : isCent (pyRound2 q) := by
  rw [isCent_iff]
  exact ⟨roundHE (q * 100), by unfold pyRound2; field_simp⟩

/-- Every integer is a two-decimal value. -/
theorem isCent_intCast (n : ℤ) : isCent (n : ℚ) :=
  isCent_iff.2 ⟨n * 100, by push_cast; ring⟩

/-- `10.123` is not a two-decimal value. -/
theorem not_isCent_10123 : ¬ isCent ((10123 : ℚ) / 1000) := by
  rw [isCent_iff]
  rintro ⟨n, hn⟩
  have h2 : (1012300 : ℚ) = n * 1000 := by
    field_simp at hn
    linarith
  have h3 : (1012300 : ℤ) = n * 1000 := by exact_mod_cast h2
  omega

/-- A row with fewer than five fields is skipped by the expansion loop. -/
theorem processLine_short (bufx bufy : ℚ) (line : List Cell) (h : line.length < 5) :
    processLine bufx bufy line = .ok [] := by
  match line with
  | [] => rfl
  | [_] => rfl
  | [_, _] => rfl
  | [_, _, _] => rfl
  | [_, _, _, _] => rfl
  | _ :: _ :: _ :: _ :: _ :: _ =>
    simp only [List.length_cons] at h
    omega

/-- C1: for every input row with at least 5 fields (and two-decimal data,
on which `round(v, 2)` is the identity), the buffer expansion loop emits
exactly the five rows `(c, t, p*5+0, x - buffer_x, y)`,
`(c, t, p*5+1, x + buffer_x, y)`, `(c, t, p*5+2, x, y)`,
`(c, t, p*5+3, x, y - buffer_y)`, `(c, t, p*5+4, x, y + buffer_y)` in
this exact order; and every row with fewer than 5 fields contributes no
output rows rather than being fatal. -/
theorem claim1_buffer_quintuple (bufx bufy : ℚ) (c t : Cell) (p x y : ℚ)
    (extra : List Cell) (rest : List (List Cell)) (out : List (List Cell))
    (bad : List Cell)
    (hp : isCent p) (hx : isCent x) (hy : isCent y)
    (hbx : isCent bufx) (hby : isCent bufy)
    (hrest : buffer_transform bufx bufy rest = .ok out)
    (hbad : bad.length < 5) :
    buffer_transform bufx bufy ((c :: t :: some p :: some x :: some y :: extra) :: rest)
      = .ok ([ [c, t, some (p * 5 + 0), some (x - bufx), some y],
               [c, t, some (p * 5 + 1), some (x + bufx), some y],
               [c, t, some (p * 5 + 2), some x, some y],
               [c, t, some (p * 5 + 3), some x, some (y - bufy)],
               [c, t, some (p * 5 + 4), some x, some (y + bufy)] ] ++ out)
    ∧ buffer_transform bufx bufy (bad :: rest) = buffer_transform bufx bufy rest := by
  have hc0 : isCent (0 : ℚ) := by simpa using isCent_intCast 0
  have hc1 : isCent (1 : ℚ) := by simpa using isCent_intCast 1
  have hc2 : isCent (2 : ℚ) := by simpa using isCent_intCast 2
  have hc3 : isCent (3 : ℚ) := by simpa using isCent_intCast 3
  have hc4 : isCent (4 : ℚ) := by simpa using isCent_intCast 4
  have h0' : pyRound2 (p * 5) = p * 5 := pyRound2_eq_self hp.mul_five
  have h0 : pyRound2 (p * 5 + 0) = p * 5 + 0 := pyRound2_eq_self (hp.mul_five.add hc0)
  have h1 : pyRound2 (p * 5 + 1) = p * 5 + 1 := pyRound2_eq_self (hp.mul_five.add hc1)
  have h2 : pyRound2 (p * 5 + 2) = p * 5 + 2 := pyRound2_eq_self (hp.mul_five.add hc2)
  have h3 : pyRound2 (p * 5 + 3) = p * 5 + 3 := pyRound2_eq_self (hp.mul_five.add hc3)
  have h4 : pyRound2 (p * 5 + 4) = p * 5 + 4 := pyRound2_eq_self (hp.mul_five.add hc4)
  have hxm : pyRound2 (x - bufx) = x - bufx := pyRound2_eq_self (hx.sub hbx)
  have hxp : pyRound2 (x + bufx) = x + bufx := pyRound2_eq_self (hx.add hbx)
  have hym : pyRound2 (y - bufy) = y - bufy := pyRound2_eq_self (hy.sub hby)
  have hyp : pyRound2 (y + bufy) = y + bufy := pyRound2_eq_self (hy.add hby)
  constructor
  · simp [buffer_transform, processLine, hrest, h0', h0, h1, h2, h3, h4, hxm, hxp, hym, hyp]
  · cases hbt : buffer_transform bufx bufy rest <;>
      simp [buffer_transform, processLine_short _ _ _ hbad, hbt]

/-- C1 witness: the spec §8 scenario — input row `(0, 0, 0, 10.0, 20.0)`
with `buffer_x = 2`, `buffer_y = 3` yields exactly the five rows with
point ids `0..4` and shifted coordinates `10∓2`, `20∓3`, and an empty
trailing line is skipped. -/
theorem claim1_buffer_quintuple_witness :
    buffer_transform 2 3 [[some 0, some 0, some 0, some 10, some 20]]
      = .ok ([ [some 0, some 0, some ((0 : ℚ) * 5 + 0), some ((10 : ℚ) - 2), some 20],
               [some 0, some 0, some ((0 : ℚ) * 5 + 1), some ((10 : ℚ) + 2), some 20],
               [some 0, some 0, some ((0 : ℚ) * 5 + 2), some (10 : ℚ), some 20],
               [some 0, some 0, some ((0 : ℚ) * 5 + 3), some (10 : ℚ), some ((20 : ℚ) - 3)],
               [some 0, some 0, some ((0 : ℚ) * 5 + 4), some (10 : ℚ), some ((20 : ℚ) + 3)] ] ++ [])
    ∧ buffer_transform 2 3 [[]] = buffer_transform 2 3 [] :=
  claim1_buffer_quintuple 2 3 (some 0) (some 0) 0 10 20 [] [] [] []
    (by simpa using isCent_intCast 0) (by simpa using isCent_intCast 10)
    (by simpa using isCent_intCast 20) (by simpa using isCent_intCast 2)
    (by simpa using isCent_intCast 3) rfl (by simp)

/-- C4 counterexample: with `buffer_x = 2`, `buffer_y = 3` and the input
row `(0, 0, 0, 10.123, 20)`, the unshifted control row (index 2) passes
the x-coordinate through as `10.123`, which is not a two-decimal value
and is changed by `round(v, 2)`, so not every emitted coordinate is
rounded to 2 decimal places. -/
theorem claim4_rounding_counterexample :
    (((processLine 2 3 [some 0, some 0, some 0, some ((10123 : ℚ)/1000), some 20]
        ).toOption.getD []).getD 2 []).getD 3 none = some ((10123 : ℚ)/1000)
    ∧ ¬ isCent ((10123 : ℚ)/1000)
    ∧ pyRound2 ((10123 : ℚ)/1000) ≠ (10123 : ℚ)/1000 :=
  ⟨rfl, not_isCent_10123,
    fun h => not_isCent_10123 (h ▸ isCent_pyRound2 ((10123 : ℚ)/1000))⟩

/-- Serialization and renumeration round-trip: `pd.to_numeric` over rows
written from records returns exactly those records. -/
theorem toRecords_map_recordToRow (recs : List Record) :
    toRecords (recs.map recordToRow) = some recs := by
  induction recs with
  | nil => rfl
  | cons r rest ih => simp [toRecords, recordToRow, rowToRecord, ih]

/-- A 5-cell row containing a non-numeric cell fails `pd.to_numeric`. -/
theorem rowToRecord_none_of_none_mem (r : List Cell) (h5 : r.length = 5)
    (hn : none ∈ r) : rowToRecord r = none := by
  rcases r with _ | ⟨a, _ | ⟨b, _ | ⟨c, _ | ⟨d, _ | ⟨e, tl⟩⟩⟩⟩⟩ <;>
      simp only [List.length_cons, List.length_nil] at h5 <;> try omega
  have htl : tl = [] := List.length_eq_zero.1 (by omega)
  subst htl
  rcases a with _ | av <;> rcases b with _ | bv <;> rcases c with _ | cv <;>
    rcases d with _ | dv <;> rcases e with _ | ev <;> simp_all [rowToRecord]

/-- One failing row fails the whole frame's renumeration. -/
theorem toRecords_none_of_mem (rows : Content) (r : List Cell)
    (hmem : r ∈ rows) (hr : rowToRecord r = none) : toRecords rows = none := by
  induction rows with
  | nil => simp at hmem
  | cons hd tl ih =>
    rcases List.mem_cons.1 hmem with h | h
    · subst h
      simp [toRecords, hr]
    · cases hhd : rowToRecord hd <;> simp [toRecords, hhd, ih h]

/-- C3 counterexample: on an empty input the loader raises (pandas
`EmptyDataError` is raised by `pd.read_csv` before the `if len(df_num)`
fallback can run), so it does not return `con = tst = poi = 0`. -/
theorem claim3_empty_counterexample :
    read_config_csv "data.csv" [] = Except.error Exc.emptyData
    ∧ (read_config_csv "data.csv" []).toOption = none :=
  ⟨rfl, rfl⟩

/-- C3 amended: for every well-formed nonempty 5-column input the loader
returns `con`, `tst`, `poi` equal to `int(max(column)) + 1` for the three
ID columns; an empty input raises (the in-code `0` fallback is
unreachable because `pd.read_csv` raises on an empty input first). -/
theorem claim3_cardinalities (path : String) (recs : List Record)
    (hne : recs ≠ []) :
    read_config_csv path (recs.map recordToRow)
      = .ok ⟨recs, pyInt (colMax Record.conID recs) + 1,
                   pyInt (colMax Record.tstID recs) + 1,
                   pyInt (colMax Record.poiID recs) + 1⟩
    ∧ read_config_csv path [] = Except.error Exc.emptyData := by
  refine ⟨?_, rfl⟩
  rcases recs with _ | ⟨r, rest⟩
  · exact absurd rfl hne
  · have hlen : (recordToRow r :: rest.map recordToRow).length ≠ 0 := by simp
    unfold read_config_csv
    rw [if_neg (by simp [recordToRow]), if_neg (by simp [ncolsOf, recordToRow]),
      if_neg (by simp [ncolsOf, recordToRow])]
    have hmap := toRecords_map_recordToRow (r :: rest)
    simp only [List.map_cons] at hmap ⊢
    rw [hmap]
    simp

/-- C3 amended witness: a concrete two-record input yields
`con = 2`, `tst = 4`, `poi = 6`, and the empty input raises. -/
theorem claim3_cardinalities_witness :
    read_config_csv "data.csv"
        ([⟨1, 3, 5, 10, 20⟩, ⟨0, 2, 4, 11, 21⟩].map recordToRow)
      = .ok ⟨[⟨1, 3, 5, 10, 20⟩, ⟨0, 2, 4, 11, 21⟩],
             pyInt (colMax Record.conID [⟨1, 3, 5, 10, 20⟩, ⟨0, 2, 4, 11, 21⟩]) + 1,
             pyInt (colMax Record.tstID [⟨1, 3, 5, 10, 20⟩, ⟨0, 2, 4, 11, 21⟩]) + 1,
             pyInt (colMax Record.poiID [⟨1, 3, 5, 10, 20⟩, ⟨0, 2, 4, 11, 21⟩]) + 1⟩
    ∧ read_config_csv "data.csv" [] = Except.error Exc.emptyData :=
  claim3_cardinalities "data.csv" [⟨1, 3, 5, 10, 20⟩, ⟨0, 2, 4, 11, 21⟩] (by simp)

/-- C5: on a nonempty rectangular input, a column count other than 5
fails with the `ValueError` naming the offending path and the actual
column count, and any non-numeric cell (with the column count equal to
5) fails the `pd.to_numeric` conversion; in both cases the loader raises
and returns no dataset. -/
theorem claim5_loader_validation (path : String) (rows : Content)
    (hne : rows ≠ [])
    (hrect : ∀ r ∈ rows, r.length = ncolsOf rows) :
    (ncolsOf rows ≠ 5 →
      read_config_csv path rows = .error (.formatCols path (ncolsOf rows)))
    ∧ (ncolsOf rows = 5 → (∃ r ∈ rows, none ∈ r) →
        read_config_csv path rows = .error Exc.toNumeric) := by
  have hempty : rows.isEmpty = false := by
    rcases rows with _ | ⟨r, rest⟩
    · exact absurd rfl hne
    · rfl
  have hall : rows.all (fun r => r.length = ncolsOf rows) = true := by
    rw [List.all_eq_true]
    intro r hr
    simp [hrect r hr]
  constructor
  · intro hn5
    unfold read_config_csv
    rw [if_neg (by simp [hempty]), if_neg (by simp [hall]), if_pos hn5]
  · rintro h5 ⟨r, hmem, hcell⟩
    have hrec : toRecords rows = none :=
      toRecords_none_of_mem rows r hmem
        (rowToRecord_none_of_none_mem r (h5 ▸ hrect r hmem) hcell)
    unfold read_config_csv
    rw [if_neg (by simp [hempty]), if_neg (by simp [hall]), if_neg (by simp [h5]), hrec]

/-- C5 witness: a 3-column row fails naming the path and the count 3, and
a 5-column input with one non-numeric cell fails the numeric
conversion. -/
theorem claim5_loader_validation_witness :
    read_config_csv "bad.csv" [[some 1, some 2, some 3]]
      = .error (.formatCols "bad.csv" 3)
    ∧ read_config_csv "bad.csv" [[some 1, none, some 3, some 4, some 5]]
      = .error Exc.toNumeric :=
  ⟨by
    have h := (claim5_loader_validation "bad.csv" [[some 1, some 2, some 3]]
      (by simp) (by simp [ncolsOf])).1 (by simp [ncolsOf])
    simpa [ncolsOf] using h,
   (claim5_loader_validation "bad.csv" [[some 1, none, some 3, some 4, some 5]]
      (by simp) (by simp [ncolsOf])).2 (by simp [ncolsOf])
      ⟨[some 1, none, some 3, some 4, some 5], by simp⟩⟩

/-- C4 amended: in each emitted row, only the coordinate that is actually
shifted is rounded to 2 decimal places (as is the re-derived point id);
the pass-through coordinate of each shifted row and both coordinates of
the unshifted control row are emitted exactly as read from the input,
without rounding. -/
theorem claim4_rounding_amended (bufx bufy : ℚ) (c t : Cell) (p x y : ℚ)
    (extra : List Cell) :
    ∃ rows, processLine bufx bufy (c :: t :: some p :: some x :: some y :: extra)
        = Except.ok rows
      ∧ rows.map (fun r => r.getD 3 none)
          = [some (pyRound2 (x - bufx)), some (pyRound2 (x + bufx)), some x, some x, some x]
      ∧ rows.map (fun r => r.getD 4 none)
          = [some y, some y, some y, some (pyRound2 (y - bufy)), some (pyRound2 (y + bufy))]
      ∧ isCent (pyRound2 (x - bufx)) ∧ isCent (pyRound2 (x + bufx))
      ∧ isCent (pyRound2 (y - bufy)) ∧ isCent (pyRound2 (y + bufy)) := by
  refine ⟨_, rfl, ?_, ?_, isCent_pyRound2 _, isCent_pyRound2 _, isCent_pyRound2 _,
    isCent_pyRound2 _⟩ <;> rfl

/-! ## Orchestrator claims -/

/-- Writing the same path twice keeps only the last write. -/
theorem fsWrite_fsWrite (fs : FS) (p : String) (c c' : Content) :
    fsWrite (fsWrite fs p c') p c = fsWrite fs p c := by
  funext q
  unfold fsWrite
  by_cases hq : q = p <;> simp [hq]

/-- The copy step is a no-op when source and destination coincide. -/
theorem fundamental_copy_self (fs : FS) (src : String) :
    fundamental_copy fs src src = .ok fs := by
  unfold fundamental_copy
  simp

/-- The copy step overwrites the destination with the source's content
when the two paths differ. -/
theorem fundamental_copy_ne (fs : FS) (src dst : String) (c : Content)
    (he : src ≠ dst) (h : fs src = some c) :
    fundamental_copy fs src dst = .ok (fsWrite fs dst c) := by
  unfold fundamental_copy
  rw [if_pos he, h]

/-- C8: with the source present, running the Fundamental copy step twice
is idempotent on the file system — the second run overwrites the artifact
with byte-identical content — and the copy is skipped entirely when the
source path and the artifact path resolve to the same absolute path. -/
theorem claim8_fundamental_idempotent (fs : FS) (src dst : String) (c : Content)
    (h : fs src = some c) (fs1 : FS)
    (h1 : fundamental_copy fs src dst = .ok fs1) :
    fundamental_copy fs1 src dst = .ok fs1
    ∧ fs1 dst = some c
    ∧ (src = dst → fundamental_copy fs src dst = .ok fs) := by
  by_cases he : src = dst
  · subst he
    rw [fundamental_copy_self] at h1
    injection h1 with h1e
    subst h1e
    exact ⟨fundamental_copy_self fs src, h, fun _ => fundamental_copy_self fs src⟩
  · rw [fundamental_copy_ne fs src dst c he h] at h1
    injection h1 with h1e
    subst h1e
    have hsrc : fsWrite fs dst c src = some c := by
      unfold fsWrite
      rw [if_neg he]
      exact h
    refine ⟨?_, by unfold fsWrite; simp, fun hc => absurd hc he⟩
    rw [fundamental_copy_ne _ src dst c he hsrc, fsWrite_fsWrite]

/-- C8 witness: copying `a.csv` over an already-copied artifact leaves
the file system unchanged, and the artifact holds the source bytes. -/
theorem claim8_fundamental_idempotent_witness :
    fundamental_copy (fsWrite fsA "res/N_C_PDPg_fundamental_Dataset.csv" [])
        "a.csv" "res/N_C_PDPg_fundamental_Dataset.csv"
      = .ok (fsWrite fsA "res/N_C_PDPg_fundamental_Dataset.csv" [])
    ∧ fsWrite fsA "res/N_C_PDPg_fundamental_Dataset.csv" []
        "res/N_C_PDPg_fundamental_Dataset.csv" = some []
    ∧ ("a.csv" = "res/N_C_PDPg_fundamental_Dataset.csv" →
        fundamental_copy fsA "a.csv" "res/N_C_PDPg_fundamental_Dataset.csv" = .ok fsA) :=
  claim8_fundamental_idempotent fsA "a.csv" "res/N_C_PDPg_fundamental_Dataset.csv" []
    rfl (fsWrite fsA "res/N_C_PDPg_fundamental_Dataset.csv" []) rfl

/-- C10: whenever the Buffer variant's branch is entered, its active flag
is 0 when the branch exits, on every path — including every error path,
since every modelled exception is caught by the branch's `except`
clauses (so the branch also never aborts the run). -/
theorem claim10_buffer_flag_always_reset (p : Params) (rs : RunState)
    (h : rs.av.PDPg_buffer = true) :
    (buffer_branch p rs).1.av.PDPg_buffer_active = 0
    ∧ (buffer_branch p rs).2 = none := by
  unfold buffer_branch
  rw [if_pos h]
  unfold buffer_after
  exact ⟨rfl, rfl⟩

/-- C10 witness: a Buffer run whose transform fails (missing source)
still exits with the active flag cleared. -/
theorem claim10_buffer_flag_always_reset_witness :
    (buffer_branch pFix (rsFix false true false false emptyFS)).1.av.PDPg_buffer_active = 0
    ∧ (buffer_branch pFix (rsFix false true false false emptyFS)).2 = none :=
  claim10_buffer_flag_always_reset pFix (rsFix false true false false emptyFS) rfl

/-- C7: invoking the Buffer variant with the source dataset missing
raises `FileNotFoundError` naming the path, the error is caught at the
Buffer variant's boundary (the branch reports no uncaught exception and
clears its flag), and the whole file system — in particular a previously
produced Fundamental artifact — is left unchanged. -/
theorem claim7_buffer_missing_source_frame (p : Params) (rs : RunState)
    (htog : rs.av.PDPg_buffer = true)
    (himp : rs.n_t_ob_imported = false)
    (hmiss : rs.fs (datasetPathFor p rs.av) = none) :
    (buffer_branch p rs).2 = none
    ∧ (buffer_branch p rs).1.fs = rs.fs
    ∧ Exc.notFound (datasetPathFor p rs.av) ∈ (buffer_branch p rs).1.caught
    ∧ (buffer_branch p rs).1.fs (joinPath p.results_dir fundamentalName)
        = rs.fs (joinPath p.results_dir fundamentalName)
    ∧ (buffer_branch p rs).1.av.PDPg_buffer_active = 0 := by
  have hmiss' : rs.fs (p.envDataset.getD rs.av.dataset_name) = none := by
    simpa [datasetPathFor] using hmiss
  unfold buffer_branch
  rw [if_pos htog]
  simp [buffer_after, buffer_try, import_n_t_ob, n_t_ob_module, snapshot, datasetPathFor, himp, hmiss']

/-- C7 witness: Buffer enabled against a file system holding only a
previously produced Fundamental artifact; the missing-source error is
caught and the artifact is untouched. -/
theorem claim7_buffer_missing_source_frame_witness :
    (buffer_branch pFix (rsFix false true false false
        (fsWrite emptyFS "res/N_C_PDPg_fundamental_Dataset.csv" []))).2 = none
    ∧ (buffer_branch pFix (rsFix false true false false
        (fsWrite emptyFS "res/N_C_PDPg_fundamental_Dataset.csv" []))).1.fs
        = (rsFix false true false false
            (fsWrite emptyFS "res/N_C_PDPg_fundamental_Dataset.csv" [])).fs
    ∧ Exc.notFound (datasetPathFor pFix (rsFix false true false false
        (fsWrite emptyFS "res/N_C_PDPg_fundamental_Dataset.csv" [])).av)
        ∈ (buffer_branch pFix (rsFix false true false false
            (fsWrite emptyFS "res/N_C_PDPg_fundamental_Dataset.csv" []))).1.caught
    ∧ (buffer_branch pFix (rsFix false true false false
        (fsWrite emptyFS "res/N_C_PDPg_fundamental_Dataset.csv" []))).1.fs
          (joinPath pFix.results_dir fundamentalName)
        = (rsFix false true false false
            (fsWrite emptyFS "res/N_C_PDPg_fundamental_Dataset.csv" [])).fs
          (joinPath pFix.results_dir fundamentalName)
    ∧ (buffer_branch pFix (rsFix false true false false
        (fsWrite emptyFS "res/N_C_PDPg_fundamental_Dataset.csv" []))).1.av.PDPg_buffer_active
        = 0 :=
  claim7_buffer_missing_source_frame pFix
    (rsFix false true false false (fsWrite emptyFS "res/N_C_PDPg_fundamental_Dataset.csv" []))
    rfl rfl (by decide)

/-- C2 counterexample: with only the Rough variant enabled and the
fundamental artifact absent, the run does not continue past the Rough
variant — the `FileNotFoundError` propagates uncaught (the rough branch
has no `try`/`except`) and aborts the whole run, contrary to the claim
that a missing artifact is fatal to that variant only. -/
theorem claim2_rough_not_soft_counterexample :
    (runModule pFix (rsFix false false true false emptyFS)).2
      = some (Exc.notFound "res/N_C_PDPg_fundamental_Dataset.csv")
    ∧ (runModule pFix (rsFix false false true false emptyFS)).1.av.PDPg_rough_active = 1 := by
  constructor <;> decide

/-- C2 amended: a `NotFoundError` is caught at the variant boundary for
the Buffer variant only (its branch never propagates any modelled
exception, so the orchestrator continues); in the Rough variant a missing
fundamental artifact propagates uncaught and aborts the run, and in the
Buffer+Rough variant a missing source dataset likewise propagates
uncaught (only `ImportError` is caught there) and aborts the run. -/
theorem claim2_notfound_scoping (p : Params) (rs : RunState) :
    (buffer_branch p rs).2 = none
    ∧ (rs.av.PDPg_rough = true →
        rs.fs (joinPath p.results_dir fundamentalName) = none →
        (rough_branch p rs).2
          = some (.notFound (joinPath p.results_dir fundamentalName)))
    ∧ (rs.av.PDPg_bufferrough = true → rs.n_t_ob_imported = false →
        rs.fs (datasetPathFor p rs.av) = none →
        (bufferrough_branch p rs).2
          = some (.notFound (datasetPathFor p rs.av))) := by
  refine ⟨?_, ?_, ?_⟩
  · unfold buffer_branch
    by_cases h : rs.av.PDPg_buffer = true
    · rw [if_pos h]
      unfold buffer_after
      rfl
    · rw [if_neg (by simpa using h)]
  · intro htog hmiss
    unfold rough_branch
    rw [if_pos htog]
    simp [snapshot, hmiss]
  · intro htog himp hmiss
    have hmiss' : rs.fs (p.envDataset.getD rs.av.dataset_name) = none := by
      simpa [datasetPathFor] using hmiss
    unfold bufferrough_branch
    rw [if_pos htog]
    simp [bufferrough_after, bufferrough_try, import_n_t_ob, n_t_ob_module, snapshot,
      datasetPathFor, himp, hmiss']

/-- C2 amended witness: with all of Buffer, Rough and Buffer+Rough
enabled and no files on disk, the Buffer branch absorbs its error while
the Rough and Buffer+Rough branches propagate theirs. -/
theorem claim2_notfound_scoping_witness :
    (buffer_branch pFix (rsFix false true true true emptyFS)).2 = none
    ∧ (rough_branch pFix (rsFix false true true true emptyFS)).2
        = some (.notFound (joinPath pFix.results_dir fundamentalName))
    ∧ (bufferrough_branch pFix (rsFix false true true true emptyFS)).2
        = some (.notFound (datasetPathFor pFix (rsFix false true true true emptyFS).av)) :=
  ⟨(claim2_notfound_scoping pFix (rsFix false true true true emptyFS)).1,
   (claim2_notfound_scoping pFix (rsFix false true true true emptyFS)).2.1 rfl rfl,
   (claim2_notfound_scoping pFix (rsFix false true true true emptyFS)).2.2 rfl rfl rfl⟩

/-- The fundamental branch touches neither the completion guard nor the
report count. -/
theorem fundamental_branch_preserves (p : Params) (rs : RunState) :
    (fundamental_branch p rs).1.av.moving_objects_printed = rs.av.moving_objects_printed
    ∧ (fundamental_branch p rs).1.reports = rs.reports := by
  simp only [fundamental_branch]
  repeat' split
  all_goals simp [snapshot]

/-- Importing `N_T_OB` changes at most the file system and the module
cache: the `av` settings, diagnostics, observations and report count are
untouched. -/
theorem import_n_t_ob_effects (p : Params) (rs : RunState) :
    (import_n_t_ob p rs).1.av = rs.av
    ∧ (import_n_t_ob p rs).1.reports = rs.reports
    ∧ (import_n_t_ob p rs).1.obs = rs.obs
    ∧ (import_n_t_ob p rs).1.caught = rs.caught := by
  unfold import_n_t_ob
  repeat' split
  all_goals simp

/-- The buffer `try` body touches neither the per-variant active flags
nor the completion guard, the report count, or the observations. -/
theorem buffer_try_effects (p : Params) (rs1 : RunState) :
    (buffer_try p rs1).av.PDPg_fundamental_active = rs1.av.PDPg_fundamental_active
    ∧ (buffer_try p rs1).av.PDPg_buffer_active = rs1.av.PDPg_buffer_active
    ∧ (buffer_try p rs1).av.PDPg_rough_active = rs1.av.PDPg_rough_active
    ∧ (buffer_try p rs1).av.PDPg_bufferrough_active = rs1.av.PDPg_bufferrough_active
    ∧ (buffer_try p rs1).av.moving_objects_printed = rs1.av.moving_objects_printed
    ∧ (buffer_try p rs1).reports = rs1.reports
    ∧ (buffer_try p rs1).obs = rs1.obs := by
  unfold buffer_try
  rcases hi : import_n_t_ob p rs1 with ⟨rs2, e2⟩
  have heff := import_n_t_ob_effects p rs1
  rw [hi] at heff
  obtain ⟨hav, hrep, hobs, -⟩ := heff
  simp only [] at hav hrep hobs
  rcases e2 with _ | e2 <;> simp only []
  · repeat' split
    all_goals simp_all
  · simp_all

/-- The buffer branch body preserves the completion guard and report
count. -/
theorem buffer_after_preserves (p : Params) (rs1 : RunState) :
    (buffer_after p rs1).1.av.moving_objects_printed = rs1.av.moving_objects_printed
    ∧ (buffer_after p rs1).1.reports = rs1.reports := by
  have heff := buffer_try_effects p rs1
  unfold buffer_after
  exact ⟨by simp [snapshot, heff.2.2.2.2.1], by simp [snapshot, heff.2.2.2.2.2.1]⟩

/-- The buffer branch touches neither the completion guard nor the
report count. -/
theorem buffer_branch_preserves (p : Params) (rs : RunState) :
    (buffer_branch p rs).1.av.moving_objects_printed = rs.av.moving_objects_printed
    ∧ (buffer_branch p rs).1.reports = rs.reports := by
  unfold buffer_branch
  by_cases h : rs.av.PDPg_buffer = true
  · rw [if_pos h]
    have hp := buffer_after_preserves p
      (snapshot { rs with av := { rs.av with PDPg_buffer_active := 1 } })
    simpa [snapshot] using hp
  · rw [if_neg h]
    exact ⟨rfl, rfl⟩

/-- The rough branch touches neither the completion guard nor the
report count. -/
theorem rough_branch_preserves (p : Params) (rs : RunState) :
    (rough_branch p rs).1.av.moving_objects_printed = rs.av.moving_objects_printed
    ∧ (rough_branch p rs).1.reports = rs.reports := by
  simp only [rough_branch]
  repeat' split
  all_goals simp [snapshot]

/-- Like `buffer_try_effects`, for the buffer+rough `try` body. -/
theorem bufferrough_try_effects (p : Params) (rs1 : RunState) :
    (bufferrough_try p rs1).1.av.PDPg_fundamental_active = rs1.av.PDPg_fundamental_active
    ∧ (bufferrough_try p rs1).1.av.PDPg_buffer_active = rs1.av.PDPg_buffer_active
    ∧ (bufferrough_try p rs1).1.av.PDPg_rough_active = rs1.av.PDPg_rough_active
    ∧ (bufferrough_try p rs1).1.av.PDPg_bufferrough_active = rs1.av.PDPg_bufferrough_active
    ∧ (bufferrough_try p rs1).1.av.moving_objects_printed = rs1.av.moving_objects_printed
    ∧ (bufferrough_try p rs1).1.reports = rs1.reports
    ∧ (bufferrough_try p rs1).1.obs = rs1.obs := by
  unfold bufferrough_try
  rcases hi : import_n_t_ob p rs1 with ⟨rs2, e2⟩
  have heff := import_n_t_ob_effects p rs1
  rw [hi] at heff
  obtain ⟨hav, hrep, hobs, -⟩ := heff
  simp only [] at hav hrep hobs
  rcases e2 with _ | e2 <;> simp only []
  · repeat' split
    all_goals simp_all
  · simp_all

/-- The buffer+rough branch body preserves the completion guard and
report count. -/
theorem bufferrough_after_preserves (p : Params) (rs1 : RunState) :
    (bufferrough_after p rs1).1.av.moving_objects_printed = rs1.av.moving_objects_printed
    ∧ (bufferrough_after p rs1).1.reports = rs1.reports := by
  have heff := bufferrough_try_effects p rs1
  unfold bufferrough_after
  rcases ht : bufferrough_try p rs1 with ⟨rs4, e4⟩
  rw [ht] at heff
  simp only [] at heff
  rcases e4 with _ | e4 <;> simp only []
  · exact ⟨by simp [snapshot, heff.2.2.2.2.1], by simp [snapshot, heff.2.2.2.2.2.1]⟩
  · exact ⟨heff.2.2.2.2.1, heff.2.2.2.2.2.1⟩

/-- The buffer+rough branch touches neither the completion guard nor the
report count. -/
theorem bufferrough_branch_preserves (p : Params) (rs : RunState) :
    (bufferrough_branch p rs).1.av.moving_objects_printed = rs.av.moving_objects_printed
    ∧ (bufferrough_branch p rs).1.reports = rs.reports := by
  unfold bufferrough_branch
  by_cases h : rs.av.PDPg_bufferrough = true
  · rw [if_pos h]
    have hp := bufferrough_after_preserves p
      (snapshot { rs with av := { rs.av with PDPg_bufferrough_active := 1 } })
    simpa [snapshot] using hp
  · rw [if_neg h]
    exact ⟨rfl, rfl⟩

/-- Once the completion guard is set, a whole re-entry of the
orchestrator emits no report and leaves the guard set. -/
theorem runModule_guard_stable (p : Params) (rs : RunState)
    (h : rs.av.moving_objects_printed = true) :
    (runModule p rs).1.reports = rs.reports
    ∧ (runModule p rs).1.av.moving_objects_printed = true := by
  simp only [runModule]
  rcases hf : fundamental_branch p (snapshot rs) with ⟨rs1, e1⟩
  have hfp := fundamental_branch_preserves p (snapshot rs)
  rw [hf] at hfp
  rcases e1 with _ | e1
  case _ =>
    simp only [] at hfp ⊢
    rcases hb : buffer_branch p rs1 with ⟨rs2, e2⟩
    have hbp := buffer_branch_preserves p rs1
    rw [hb] at hbp
    rcases e2 with _ | e2
    case _ =>
      simp only [] at hbp ⊢
      rcases hr : rough_branch p rs2 with ⟨rs3, e3⟩
      have hrp := rough_branch_preserves p rs2
      rw [hr] at hrp
      rcases e3 with _ | e3
      case _ =>
        simp only [] at hrp ⊢
        rcases hbr : bufferrough_branch p rs3 with ⟨rs4, e4⟩
        have hbrp := bufferrough_branch_preserves p rs3
        rw [hbr] at hbrp
        rcases e4 with _ | e4
        case _ => simp_all [snapshot]
        case _ => simp_all [snapshot]
      case _ => simp_all [snapshot]
    case _ => simp_all [snapshot]
  case _ => simp_all [snapshot]

/-- C9: completion is reported exactly once per process lifetime — a run
that enters with the guard unset and completes increments the report
count and sets the guard, and once the guard is set every later re-entry
of the orchestrator (any number of them) emits no further report and
leaves the guard set. -/
theorem claim9_completion_reported_once (p : Params) (rs : RunState) :
    (rs.av.moving_objects_printed = false → (runModule p rs).2 = none →
      (runModule p rs).1.reports = rs.reports + 1
      ∧ (runModule p rs).1.av.moving_objects_printed = true)
    ∧ (rs.av.moving_objects_printed = true → ∀ n : ℕ,
        (runSeq p n rs).reports = rs.reports
        ∧ (runSeq p n rs).av.moving_objects_printed = true) := by
  constructor
  · intro h hok
    simp only [runModule] at hok ⊢
    rcases hf : fundamental_branch p (snapshot rs) with ⟨rs1, e1⟩
    have hfp := fundamental_branch_preserves p (snapshot rs)
    rw [hf] at hfp hok
    rcases e1 with _ | e1
    case _ =>
      simp only [] at hfp hok ⊢
      rcases hb : buffer_branch p rs1 with ⟨rs2, e2⟩
      have hbp := buffer_branch_preserves p rs1
      rw [hb] at hbp hok
      rcases e2 with _ | e2
      case _ =>
        simp only [] at hbp hok ⊢
        rcases hr : rough_branch p rs2 with ⟨rs3, e3⟩
        have hrp := rough_branch_preserves p rs2
        rw [hr] at hrp hok
        rcases e3 with _ | e3
        case _ =>
          simp only [] at hrp hok ⊢
          rcases hbr : bufferrough_branch p rs3 with ⟨rs4, e4⟩
          have hbrp := bufferrough_branch_preserves p rs3
          rw [hbr] at hbrp hok
          rcases e4 with _ | e4
          case _ => simp_all [snapshot]
          case _ => simp at hok
        case _ => simp at hok
      case _ => simp at hok
    case _ => simp at hok
  · intro h n
    induction n generalizing rs with
    | zero => exact ⟨rfl, h⟩
    | succ n ih =>
      have hstep := runModule_guard_stable p rs h
      have := ih (runModule p rs).1 hstep.2
      unfold runSeq
      rw [this.1, hstep.1]
      exact ⟨rfl, this.2⟩

/-- C9 witness: a completing first run reports once and sets the guard;
from a guard-set state three further re-entries report nothing. -/
theorem claim9_completion_reported_once_witness :
    ((runModule pFix (rsFix true false false false srcFS)).1.reports
        = (rsFix true false false false srcFS).reports + 1
      ∧ (runModule pFix
          (rsFix true false false false srcFS)).1.av.moving_objects_printed = true)
    ∧ ((runSeq pFix 3 rsPrinted).reports = rsPrinted.reports
      ∧ (runSeq pFix 3 rsPrinted).av.moving_objects_printed = true) :=
  ⟨(claim9_completion_reported_once pFix (rsFix true false false false srcFS)).1
      rfl (by decide),
   (claim9_completion_reported_once pFix rsPrinted).2 rfl 3⟩

instance (q : ℕ × ℕ × ℕ × ℕ) : Decidable (atMostOneActive q) := by
  unfold atMostOneActive
  infer_instance

/-- Appending one good observation point preserves soundness of the log. -/
theorem obs_append_amo {obs : List (ℕ × ℕ × ℕ × ℕ)} {t : ℕ × ℕ × ℕ × ℕ}
    (hobs : ∀ q ∈ obs, atMostOneActive q) (ht : atMostOneActive t) :
    ∀ q ∈ obs ++ [t], atMostOneActive q := by
  intro q hq
  rcases List.mem_append.1 hq with hq | hq
  · exact hobs q hq
  · simp only [List.mem_singleton] at hq
    subst hq
    exact ht

/-- Flag tuples with at most one nonzero entry. -/
theorem amo_0000 : atMostOneActive (0, 0, 0, 0) := by decide

theorem amo_1000 : atMostOneActive (1, 0, 0, 0) := by decide

theorem amo_0100 : atMostOneActive (0, 1, 0, 0) := by decide

theorem amo_0010 : atMostOneActive (0, 0, 1, 0) := by decide

theorem amo_0001 : atMostOneActive (0, 0, 0, 1) := by decide

/-- Observation-point soundness of the fundamental branch: starting from
all-zero flags and a sound observation log, every observation point it
adds shows at most one active flag, and when it completes all flags are
zero again. -/
theorem fundamental_branch_flags (p : Params) (rs : RunState)
    (hz : flagsZero rs.av) (hobs : ∀ q ∈ rs.obs, atMostOneActive q) :
    (∀ q ∈ (fundamental_branch p rs).1.obs, atMostOneActive q)
    ∧ ((fundamental_branch p rs).2 = none → flagsZero (fundamental_branch p rs).1.av) := by
  obtain ⟨hz1, hz2, hz3, hz4⟩ := hz
  have h1 : ∀ q ∈ rs.obs ++ [(1, rs.av.PDPg_buffer_active, rs.av.PDPg_rough_active,
      rs.av.PDPg_bufferrough_active)], atMostOneActive q :=
    obs_append_amo hobs (by rw [hz2, hz3, hz4]; exact amo_1000)
  unfold fundamental_branch
  by_cases h : rs.av.PDPg_fundamental = true
  · rw [if_pos h]
    simp only [snapshot]
    cases hcopy : fundamental_copy rs.fs rs.av.dataset_name
        (joinPath p.results_dir fundamentalName) with
    | error e => exact ⟨h1, by simp⟩
    | ok fs2 =>
      simp only []
      cases hread : fs2 (joinPath p.results_dir fundamentalName) with
      | none => exact ⟨h1, by simp⟩
      | some rows =>
        simp only []
        cases hcsv : read_config_csv (joinPath p.results_dir fundamentalName) rows with
        | error e => exact ⟨h1, by simp⟩
        | ok res =>
          simp only []
          exact ⟨obs_append_amo h1 (by rw [hz2, hz3, hz4]; exact amo_0000),
                 fun _ => ⟨rfl, hz2, hz3, hz4⟩⟩
  · rw [if_neg h]
    exact ⟨hobs, fun _ => ⟨hz1, hz2, hz3, hz4⟩⟩

/-- Observation-point soundness of the buffer branch body. -/
theorem buffer_after_flags (p : Params) (rs1 : RunState)
    (hf1 : rs1.av.PDPg_fundamental_active = 0)
    (hr1 : rs1.av.PDPg_rough_active = 0)
    (hbr1 : rs1.av.PDPg_bufferrough_active = 0)
    (hobs1 : ∀ q ∈ rs1.obs, atMostOneActive q) :
    (∀ q ∈ (buffer_after p rs1).1.obs, atMostOneActive q)
    ∧ flagsZero (buffer_after p rs1).1.av := by
  obtain ⟨f1, -, f3, f4, -, -, fobs⟩ := buffer_try_effects p rs1
  unfold buffer_after
  constructor
  · simp only [snapshot]
    refine obs_append_amo ?_ ?_
    · rw [fobs]
      exact hobs1
    · rw [f1, f3, f4, hf1, hr1, hbr1]
      exact amo_0000
  · exact ⟨by simp [snapshot, f1, hf1], by simp [snapshot], by simp [snapshot, f3, hr1],
      by simp [snapshot, f4, hbr1]⟩

/-- Observation-point soundness of the buffer branch. -/
theorem buffer_branch_flags (p : Params) (rs : RunState)
    (hz : flagsZero rs.av) (hobs : ∀ q ∈ rs.obs, atMostOneActive q) :
    (∀ q ∈ (buffer_branch p rs).1.obs, atMostOneActive q)
    ∧ ((buffer_branch p rs).2 = none → flagsZero (buffer_branch p rs).1.av) := by
  obtain ⟨hz1, hz2, hz3, hz4⟩ := hz
  unfold buffer_branch
  by_cases h : rs.av.PDPg_buffer = true
  · rw [if_pos h]
    have haux := buffer_after_flags p
      (snapshot { rs with av := { rs.av with PDPg_buffer_active := 1 } })
      (by simp [snapshot, hz1]) (by simp [snapshot, hz3]) (by simp [snapshot, hz4])
      (by
        simp only [snapshot]
        refine obs_append_amo hobs ?_
        rw [hz1, hz3, hz4]
        exact amo_0100)
    exact ⟨haux.1, fun _ => haux.2⟩
  · rw [if_neg h]
    exact ⟨hobs, fun _ => ⟨hz1, hz2, hz3, hz4⟩⟩

/-- Observation-point soundness of the rough branch. -/
theorem rough_branch_flags (p : Params) (rs : RunState)
    (hz : flagsZero rs.av) (hobs : ∀ q ∈ rs.obs, atMostOneActive q) :
    (∀ q ∈ (rough_branch p rs).1.obs, atMostOneActive q)
    ∧ ((rough_branch p rs).2 = none → flagsZero (rough_branch p rs).1.av) := by
  obtain ⟨hz1, hz2, hz3, hz4⟩ := hz
  have h1 : ∀ q ∈ rs.obs ++ [(rs.av.PDPg_fundamental_active, rs.av.PDPg_buffer_active, 1,
      rs.av.PDPg_bufferrough_active)], atMostOneActive q :=
    obs_append_amo hobs (by rw [hz1, hz2, hz4]; exact amo_0010)
  unfold rough_branch
  by_cases h : rs.av.PDPg_rough = true
  · rw [if_pos h]
    simp only [snapshot]
    cases hread : rs.fs (joinPath p.results_dir fundamentalName) with
    | none => exact ⟨h1, by simp⟩
    | some rows =>
      simp only []
      cases hcsv : read_config_csv (joinPath p.results_dir fundamentalName) rows with
      | error e => exact ⟨h1, by simp⟩
      | ok res =>
        simp only []
        exact ⟨obs_append_amo h1 (by rw [hz1, hz2, hz4]; exact amo_0000),
               fun _ => ⟨hz1, hz2, rfl, hz4⟩⟩
  · rw [if_neg h]
    exact ⟨hobs, fun _ => ⟨hz1, hz2, hz3, hz4⟩⟩

/-- Observation-point soundness of the buffer+rough branch body. -/
theorem bufferrough_after_flags (p : Params) (rs1 : RunState)
    (hf1 : rs1.av.PDPg_fundamental_active = 0)
    (hb1 : rs1.av.PDPg_buffer_active = 0)
    (hr1 : rs1.av.PDPg_rough_active = 0)
    (hobs1 : ∀ q ∈ rs1.obs, atMostOneActive q) :
    (∀ q ∈ (bufferrough_after p rs1).1.obs, atMostOneActive q)
    ∧ ((bufferrough_after p rs1).2 = none → flagsZero (bufferrough_after p rs1).1.av) := by
  obtain ⟨f1, f2, f3, -, -, -, fobs⟩ := bufferrough_try_effects p rs1
  unfold bufferrough_after
  rcases ht : bufferrough_try p rs1 with ⟨rs4, e4⟩
  rw [ht] at f1 f2 f3 fobs
  simp only [] at f1 f2 f3 fobs
  have hmem : ∀ q ∈ rs4.obs, atMostOneActive q := by
    rw [fobs]
    exact hobs1
  rcases e4 with _ | e4 <;> simp only []
  · constructor
    · simp only [snapshot]
      refine obs_append_amo hmem ?_
      rw [f1, f2, f3, hf1, hb1, hr1]
      exact amo_0000
    · intro
      exact ⟨by simp [snapshot, f1, hf1], by simp [snapshot, f2, hb1],
        by simp [snapshot, f3, hr1], by simp [snapshot]⟩
  · exact ⟨hmem, by simp⟩

/-- Observation-point soundness of the buffer+rough branch. -/
theorem bufferrough_branch_flags (p : Params) (rs : RunState)
    (hz : flagsZero rs.av) (hobs : ∀ q ∈ rs.obs, atMostOneActive q) :
    (∀ q ∈ (bufferrough_branch p rs).1.obs, atMostOneActive q)
    ∧ ((bufferrough_branch p rs).2 = none → flagsZero (bufferrough_branch p rs).1.av) := by
  obtain ⟨hz1, hz2, hz3, hz4⟩ := hz
  unfold bufferrough_branch
  by_cases h : rs.av.PDPg_bufferrough = true
  · rw [if_pos h]
    exact bufferrough_after_flags p
      (snapshot { rs with av := { rs.av with PDPg_bufferrough_active := 1 } })
      (by simp [snapshot, hz1]) (by simp [snapshot, hz2]) (by simp [snapshot, hz3])
      (by
        simp only [snapshot]
        refine obs_append_amo hobs ?_
        rw [hz1, hz2, hz3]
        exact amo_0001)
  · rw [if_neg h]
    exact ⟨hobs, fun _ => ⟨hz1, hz2, hz3, hz4⟩⟩

/-- C6: starting a run with all active flags at 0, every observation
point between stage invocations shows at most one of the four variant
active flags set to 1, and a completed run ends with all flags back at
0 (each variant clears its flag before the next variant's branch
begins). -/
theorem claim6_at_most_one_active_flag (p : Params) (rs : RunState)
    (hz : flagsZero rs.av) (hobs : ∀ q ∈ rs.obs, atMostOneActive q) :
    (∀ q ∈ (runModule p rs).1.obs, atMostOneActive q)
    ∧ ((runModule p rs).2 = none → flagsZero (runModule p rs).1.av) := by
  simp only [runModule]
  have hobs0 : ∀ q ∈ (snapshot rs).obs, atMostOneActive q := by
    simp only [snapshot]
    intro q hq
    rcases List.mem_append.1 hq with hq | hq
    · exact hobs q hq
    · obtain ⟨hz1, hz2, hz3, hz4⟩ := hz
      simp only [List.mem_singleton] at hq
      subst hq
      rw [hz1, hz2, hz3, hz4]
      exact amo_0000
  have hz0 : flagsZero (snapshot rs).av := hz
  rcases hf : fundamental_branch p (snapshot rs) with ⟨rs1, e1⟩
  have hfl := fundamental_branch_flags p (snapshot rs) hz0 hobs0
  rw [hf] at hfl
  rcases e1 with _ | e1
  case _ =>
    simp only [] at hfl ⊢
    obtain ⟨ho1, hzf1⟩ := hfl
    rcases hb : buffer_branch p rs1 with ⟨rs2, e2⟩
    have hbl := buffer_branch_flags p rs1 (hzf1 (by trivial)) ho1
    rw [hb] at hbl
    rcases e2 with _ | e2
    case _ =>
      simp only [] at hbl ⊢
      obtain ⟨ho2, hzf2⟩ := hbl
      rcases hr : rough_branch p rs2 with ⟨rs3, e3⟩
      have hrl := rough_branch_flags p rs2 (hzf2 (by trivial)) ho2
      rw [hr] at hrl
      rcases e3 with _ | e3
      case _ =>
        simp only [] at hrl ⊢
        obtain ⟨ho3, hzf3⟩ := hrl
        rcases hbr : bufferrough_branch p rs3 with ⟨rs4, e4⟩
        have hbrl := bufferrough_branch_flags p rs3 (hzf3 (by trivial)) ho3
        rw [hbr] at hbrl
        rcases e4 with _ | e4
        case _ =>
          simp only [] at hbrl ⊢
          obtain ⟨ho4, hzf4⟩ := hbrl
          obtain ⟨g1, g2, g3, g4⟩ := hzf4 (by trivial)
          by_cases hp : rs.av.moving_objects_printed = true <;>
            simp [hp, flagsZero, g1, g2, g3, g4] <;>
            exact fun a b c d hmem => ho4 (a, b, c, d) hmem
        case _ => exact ⟨hbrl.1, by simp⟩
      case _ => exact ⟨hrl.1, by simp⟩
    case _ => exact ⟨hbl.1, by simp⟩
  case _ => exact ⟨hfl.1, by simp⟩

/-- C6 witness: in a full fundamental-then-rough run, the observation
point inside the fundamental variant shows only its flag set. -/
theorem claim6_at_most_one_active_flag_witness : atMostOneActive (1, 0, 0, 0) :=
  (claim6_at_most_one_active_flag pFix (rsFix true false true false srcFS)
      ⟨rfl, rfl, rfl, rfl⟩ (by simp [rsFix])).1
    (1, 0, 0, 0) (by decide)

end SAM
